import Mathlib

/-!
Verification of `invenio_base/urls.py`: the cross-application URL builder
(`InvenioAppsUrlsBuilder`).

The embedding is shallow.  The werkzeug routing collaborator (`Map`, `Rule`,
`MapAdapter.build`, `BuildError`) is modelled at the level the module uses it:
a rule is a URL pattern (literal and parameter segments) together with an
endpoint name, an optional HTTP-method restriction and the view function the
framework associates with the route (folded into the rule record; the stripped
rules built by `setup` carry none).  `MapAdapter.build` is reverse lookup:
first rule whose endpoint matches and which is `suitable_for` the given values
and method, rendered by substituting the values into the pattern; it raises
`BuildError` when no rule is suitable.  Python exceptions become an explicit
error type (`BuildError`, `KeyError` from a missing config key,
`AttributeError` from reading an attribute the constructor never set), and
fallible code returns `Except`.
-/

namespace InvenioBase

/-- A segment of a URL rule pattern: a literal piece such as "/records/" or a
named parameter placeholder such as "<id>". -/
inductive Segment where
  | lit : String → Segment
  | param : String → Segment
deriving DecidableEq

/-- A URL rule pattern, e.g. /records/<id> is [.lit "/records/", .param "id"]. -/
abbrev Pattern := List Segment

/-- The parameter names occurring in a pattern (werkzeug's `Rule.arguments`). -/
def Pattern.args : Pattern → List String
  | [] => []
  | .lit _ :: rest => Pattern.args rest
  | .param p :: rest => p :: Pattern.args rest

/-- Render one segment against a value mapping (substitution of a parameter by
its value; literals pass through).  Callers only render suitable rules, for
which every parameter has a value. -/
def Segment.render (seg : Segment) (values : List (String × String)) : String :=
  match seg with
  | .lit s => s
  | .param p => ((values.lookup p).getD "")

/-- Render a whole pattern against a value mapping: the concrete relative
path. -/
def Pattern.render (pat : Pattern) (values : List (String × String)) : String :=
  String.join (pat.map (fun seg => seg.render values))

/-- A routing rule.  Models a werkzeug `Rule` as the module uses it, with the
view function Flask associates to the route folded in as `view_func` (an
opaque handler identifier; `none` when the rule has no executable handler
attached, as with the stripped rules `Rule(r.rule, endpoint=r.endpoint)`
that `setup` builds, whose `methods` default to `None` as well). -/
structure Rule where
  rule : Pattern
  endpoint : String
  methods : Option (List String)
  view_func : Option Nat
deriving DecidableEq

/-- A werkzeug routing table: an ordered collection of rules. -/
structure Map where
  rules : List Rule
deriving DecidableEq

/-- The Python exceptions the module's control flow distinguishes. -/
inductive PyError where
  | buildError (endpoint : String)
  | keyError (key : String)
  | attributeError (attr : String)
deriving DecidableEq

/-- Whether an exception is a werkzeug `BuildError` (the only class the
`except BuildError` clause in `build` catches). -/
def PyError.isBuildError : PyError → Bool
  | .buildError _ => true
  | _ => false

/-- Models werkzeug's `Rule.suitable_for(values, method)`: the method check
passes when no method is asked for or the rule restricts none, and every
parameter of the pattern must be supplied a value. -/
def Rule.suitable_for (r : Rule) (values : List (String × String))
    (method : Option String) : Bool :=
  (match method, r.methods with
   | some m, some ms => ms.contains m
   | _, _ => true)
  && (Pattern.args r.rule).all (fun p => (values.lookup p).isSome)

/-- Models `map.bind("").build(endpoint, values, method=method,
force_external=False)`: the first rule registered for the endpoint and
suitable for the values and method is rendered to a relative path; when there
is none, a `BuildError` carrying the endpoint is raised. -/
def Map.build (m : Map) (endpoint : String) (values : List (String × String))
    (method : Option String) : Except PyError String :=
  match m.rules.find? (fun r => r.endpoint == endpoint
      && r.suitable_for values method) with
  | some r => .ok (Pattern.render r.rule values)
  | none => .error (.buildError endpoint)

/-- The slice of a Flask application `build` reads: its routing table
(`current_app.url_map`) and its configuration (`current_app.config`, an
association of string keys to string values). -/
structure FlaskApp where
  url_map : Map
  config : List (String × String)
deriving DecidableEq

/-- The resolver state: the two configuration key names and the entry-point
groups stored by `__init__`, plus the mirrored routing table.  `url_map` is
`none` as long as `setup` has not run, modelling the attribute that
`__init__` never sets (reading it then raises `AttributeError`).  The field
names `cfg_of_app_pfx` and `cfg_of_other_app_pfx` embed the source's
`cfg_of_app_prefix` and `cfg_of_other_app_prefix` (the source spelling is a
Lean keyword). -/
structure InvenioAppsUrlsBuilder where
  cfg_of_app_pfx : String
  cfg_of_other_app_pfx : String
  groups_of_other_app_entrypoints : List String
  url_map : Option Map
deriving DecidableEq

namespace InvenioAppsUrlsBuilder

/-- The constructor `__init__`: stores the two configuration key names and the
entry-point groups; it does not set the `url_map` attribute. -/
def init (cfg_of_app_pfx cfg_of_other_app_pfx : String)
    (groups_of_other_app_entrypoints : List String) : InvenioAppsUrlsBuilder :=
  { cfg_of_app_pfx := cfg_of_app_pfx
    cfg_of_other_app_pfx := cfg_of_other_app_pfx
    groups_of_other_app_entrypoints := groups_of_other_app_entrypoints
    url_map := none }

/-- `setup(app)`, lines 61–64: given the throwaway application shell
`app_tmp` that `blueprint_loader` populated with the other application's
routes, store `Map([Rule(r.rule, endpoint=r.endpoint) for r in
app_tmp.url_map.iter_rules()])` — each discovered route copied keeping only
its pattern and endpoint name; the werkzeug `Rule` constructor defaults
`methods` to `None` and no view function is attached. -/
def setup (b : InvenioAppsUrlsBuilder) (app_tmp : FlaskApp) :
    InvenioAppsUrlsBuilder :=
  { b with
    url_map := some (Map.mk (app_tmp.url_map.rules.map (fun r =>
      { rule := r.rule, endpoint := r.endpoint,
        methods := none, view_func := none }))) }

/-- The `prefix` method (renamed: the source name is a Lean keyword): return
`current_app.config[site_cfg]`, raising `KeyError` when the key is absent —
the lookup happens afresh on each call, against the configuration of the
current application passed here, and no default is substituted. -/
def sitePfx (_self : InvenioAppsUrlsBuilder) (current_app : FlaskApp)
    (site_cfg : String) : Except PyError String :=
  match current_app.config.lookup site_cfg with
  | some v => .ok v
  | none => .error (.keyError site_cfg)

/-- The body of the `try` block of `build` (phase 1): build a relative URL
from the current application's own routing table, then prepend the
own-application prefix read from configuration.  Either step may raise
(`BuildError` from the table, `KeyError` from the config lookup). -/
def phase1 (b : InvenioAppsUrlsBuilder) (current_app : FlaskApp)
    (endpoint : String) (values : List (String × String))
    (method : Option String) : Except PyError String := do
  let url_relative ← Map.build current_app.url_map endpoint values method
  let p ← b.sitePfx current_app b.cfg_of_app_pfx
  pure (p ++ url_relative)

/-- Phase 2 of `build`: build from the mirrored table `self.url_map`
(raising `AttributeError` when `setup` never set it) and prepend the
other-application prefix read from configuration.  Nothing catches errors
here: they propagate. -/
def phase2 (b : InvenioAppsUrlsBuilder) (current_app : FlaskApp)
    (endpoint : String) (values : List (String × String))
    (method : Option String) : Except PyError String :=
  match b.url_map with
  | none => .error (.attributeError "url_map")
  | some m => do
      let url_relative ← Map.build m endpoint values method
      let p ← b.sitePfx current_app b.cfg_of_other_app_pfx
      pure (p ++ url_relative)

/-- `build(endpoint, values, method)`: run phase 1 under
`try ... except BuildError: pass`; a `BuildError` from phase 1 falls through
to phase 2, any other exception propagates, and a phase-1 success returns
immediately. -/
def build (b : InvenioAppsUrlsBuilder) (current_app : FlaskApp)
    (endpoint : String) (values : List (String × String))
    (method : Option String) : Except PyError String :=
  match b.phase1 current_app endpoint values method with
  | .ok url => .ok url
  | .error e =>
      if e.isBuildError then b.phase2 current_app endpoint values method
      else .error e

/-- State-passing translation of `build`: the two objects the method can see
and could mutate — the resolver (`self`) and the current application — are
threaded through every statement and returned next to the result.  No
statement of the source method assigns to either, so every branch returns
them unchanged. -/
def buildSt (b : InvenioAppsUrlsBuilder) (current_app : FlaskApp)
    (endpoint : String) (values : List (String × String))
    (method : Option String) :
    Except PyError String × InvenioAppsUrlsBuilder × FlaskApp :=
  match Map.build current_app.url_map endpoint values method with
  | .ok url_relative =>
      (match current_app.config.lookup b.cfg_of_app_pfx with
       | some p => (.ok (p ++ url_relative), b, current_app)
       | none => (.error (.keyError b.cfg_of_app_pfx), b, current_app))
  | .error e =>
      if e.isBuildError then
        match b.url_map with
        | none => (.error (.attributeError "url_map"), b, current_app)
        | some m =>
            match Map.build m endpoint values method with
            | .ok url_relative =>
                (match current_app.config.lookup b.cfg_of_other_app_pfx with
                 | some p => (.ok (p ++ url_relative), b, current_app)
                 | none =>
                     (.error (.keyError b.cfg_of_other_app_pfx), b, current_app))
            | .error e2 => (.error e2, b, current_app)
      else (.error e, b, current_app)

end InvenioAppsUrlsBuilder

/-- If no rule of a table is registered under an endpoint, reverse build from
that table raises `BuildError` for it. -/
theorem Map.build_absent (m : Map) (endpoint : String)
    (values : List (String × String)) (method : Option String)
    (h : ∀ r ∈ m.rules, r.endpoint ≠ endpoint) :
    Map.build m endpoint values method = .error (.buildError endpoint) := by
  have hf : m.rules.find? (fun r => r.endpoint == endpoint
      && r.suitable_for values method) = none := by
    rw [List.find?_eq_none]
    intro r hr
    simp [h r hr]
  simp [Map.build, hf]

/-- Reverse build only ever raises `BuildError`, carrying the endpoint it was
asked for. -/
theorem Map.build_error_eq (m : Map) (endpoint : String)
    (values : List (String × String)) (method : Option String) (err : PyError)
    (h : Map.build m endpoint values method = .error err) :
    err = .buildError endpoint := by
  unfold Map.build at h
  cases hf : m.rules.find? (fun r => r.endpoint == endpoint
      && r.suitable_for values method) <;> rw [hf] at h <;> simp at h
  exact h.symm

namespace InvenioAppsUrlsBuilder

/-- Phase 1 reads nothing from the resolver's mirrored table: replacing it
changes nothing. -/
theorem phase1_set_mirror (b : InvenioAppsUrlsBuilder) (mir : Option Map)
    (app : FlaskApp) (endpoint : String) (values : List (String × String))
    (method : Option String) :
    InvenioAppsUrlsBuilder.phase1 { b with url_map := mir } app endpoint
        values method
      = b.phase1 app endpoint values method := rfl

/-- Characterization of a phase-1 success: a relative path built from the
current application's own table, prefixed by the configured own-app value. -/
theorem phase1_ok_iff (b : InvenioAppsUrlsBuilder) (app : FlaskApp)
    (endpoint : String) (values : List (String × String))
    (method : Option String) (s : String) :
    b.phase1 app endpoint values method = .ok s ↔
      ∃ rel p, Map.build app.url_map endpoint values method = .ok rel ∧
        app.config.lookup b.cfg_of_app_pfx = some p ∧ s = p ++ rel := by
  unfold phase1 sitePfx
  cases hm : Map.build app.url_map endpoint values method with
  | error e => simp [Bind.bind, Except.bind, hm]
  | ok rel =>
      cases hc : app.config.lookup b.cfg_of_app_pfx with
      | none => simp [Bind.bind, Except.bind, hm, hc]
      | some p => simp [Bind.bind, Except.bind, pure, Except.pure, hm, hc, eq_comm]

/-- Characterization of a phase-2 success: a relative path built from the
mirrored table (which must have been set up), prefixed by the configured
other-app value. -/
theorem phase2_ok_iff (b : InvenioAppsUrlsBuilder) (app : FlaskApp)
    (endpoint : String) (values : List (String × String))
    (method : Option String) (s : String) :
    b.phase2 app endpoint values method = .ok s ↔
      ∃ mir rel p, b.url_map = some mir ∧
        Map.build mir endpoint values method = .ok rel ∧
        app.config.lookup b.cfg_of_other_app_pfx = some p ∧ s = p ++ rel := by
  unfold phase2 sitePfx
  cases hu : b.url_map with
  | none => simp
  | some mir =>
      cases hm : Map.build mir endpoint values method with
      | error e => simp [Bind.bind, Except.bind, hm]
      | ok rel =>
          cases hc : app.config.lookup b.cfg_of_other_app_pfx with
          | none => simp [Bind.bind, Except.bind, hm, hc]
          | some p => simp [Bind.bind, Except.bind, pure, Except.pure, hm, hc, eq_comm]

/-- The state-passing translation agrees with `build` and returns the
resolver and the application unchanged in every branch. -/
theorem buildSt_eq (b : InvenioAppsUrlsBuilder) (app : FlaskApp)
    (endpoint : String) (values : List (String × String))
    (method : Option String) :
    b.buildSt app endpoint values method
      = (b.build app endpoint values method, b, app) := by
  cases hm : Map.build app.url_map endpoint values method with
  | ok rel =>
      cases hc : app.config.lookup b.cfg_of_app_pfx <;>
        simp [buildSt, build, phase1, sitePfx, Bind.bind, Except.bind,
          pure, Except.pure, hm, hc, PyError.isBuildError]
  | error e =>
      have he : e = .buildError endpoint :=
        Map.build_error_eq app.url_map endpoint values method e hm
      subst he
      cases hu : b.url_map with
      | none =>
          simp [buildSt, build, phase1, phase2, sitePfx, Bind.bind,
            Except.bind, hm, hu, PyError.isBuildError]
      | some m2 =>
          cases hm2 : Map.build m2 endpoint values method with
          | error e2 =>
              simp [buildSt, build, phase1, phase2, sitePfx, Bind.bind,
                Except.bind, hm, hu, hm2, PyError.isBuildError]
          | ok rel2 =>
              cases hc2 : app.config.lookup b.cfg_of_other_app_pfx <;>
                simp [buildSt, build, phase1, phase2, sitePfx, Bind.bind,
                  Except.bind, pure, Except.pure, hm, hu, hm2, hc2,
                  PyError.isBuildError]

end InvenioAppsUrlsBuilder

/-- Two searches with pointwise equal predicates find the same element. -/
theorem find_congr_on {α : Type} (p q : α → Bool) (l : List α)
    (h : ∀ a ∈ l, p a = q a) : l.find? p = l.find? q := by
  induction l with
  | nil => rfl
  | cons a t ih =>
      simp only [List.find?]
      rw [h a (List.mem_cons_self a t)]
      cases hq : q a with
      | true => rfl
      | false => exact ih (fun x hx => h x (List.mem_cons_of_mem a hx))

open InvenioAppsUrlsBuilder

/-- Concrete data for the witnesses: the own-application route
/records/<id> under endpoint "records.detail", with a method restriction
and a view function, as Flask would register it. -/
def ruleDetail : Rule :=
  { rule := [.lit "/records/", .param "id"], endpoint := "records.detail",
    methods := some ["GET"], view_func := some 1 }

/-- Concrete data: the other application's route /search under endpoint
"search.results", as discovered in the throwaway shell (method-restricted
and carrying its view function). -/
def ruleSearchSrc : Rule :=
  { rule := [.lit "/search"], endpoint := "search.results",
    methods := some ["GET", "HEAD"], view_func := some 7 }

/-- Concrete data: the current application, with both prefix keys
configured. -/
def appMain : FlaskApp :=
  { url_map := Map.mk [ruleDetail],
    config := [("APP_PFX", "https://main.example.org"),
               ("OTHER_PFX", "https://archive.example.org")] }

/-- Concrete data: the throwaway shell populated by the blueprint loader
with the other application's routes. -/
def appTmp : FlaskApp :=
  { url_map := Map.mk [ruleSearchSrc], config := [] }

/-- Concrete data: a resolver constructed and set up from the shell. -/
def bldr : InvenioAppsUrlsBuilder :=
  (InvenioAppsUrlsBuilder.init "APP_PFX" "OTHER_PFX"
    ["invenio_base.blueprints"]).setup appTmp

/-- Concrete data: the mirrored table `bldr` holds (the stripped copy of
`appTmp`'s table). -/
def mirEx : Map :=
  Map.mk [{ rule := [.lit "/search"], endpoint := "search.results",
            methods := none, view_func := none }]

/-- Concrete data: a mirrored table that also registers the own
application's endpoint "records.detail", under a different pattern. -/
def mirBoth : Map :=
  Map.mk [{ rule := [.lit "/mirror-records/", .param "id"],
            endpoint := "records.detail", methods := none,
            view_func := none }]

/-- Concrete data: a resolver whose own-app prefix key "MISSING" is not in
the current application's configuration. -/
def bMiss : InvenioAppsUrlsBuilder :=
  (InvenioAppsUrlsBuilder.init "MISSING" "OTHER_PFX" []).setup appTmp

/-- C1: whenever a build against the current application's own routing table
succeeds and the own-app prefix key resolves, `build` returns the
own-application prefix concatenated with the path built from the own table,
for every possible mirrored table — the mirror is never consulted, even when
it also knows the endpoint. -/
theorem c1_phase1_wins_and_mirror_unconsulted (b : InvenioAppsUrlsBuilder)
    (app : FlaskApp) (endpoint : String) (values : List (String × String))
    (method : Option String) (rel p : String)
    (h1 : Map.build app.url_map endpoint values method = .ok rel)
    (h2 : app.config.lookup b.cfg_of_app_pfx = some p) :
    ∀ mir : Option Map,
      InvenioAppsUrlsBuilder.build { b with url_map := mir } app endpoint
          values method
        = .ok (p ++ rel) := by
  intro mir
  have hph : InvenioAppsUrlsBuilder.phase1 { b with url_map := mir } app
      endpoint values method = .ok (p ++ rel) := by
    rw [phase1_set_mirror]
    exact (phase1_ok_iff b app endpoint values method (p ++ rel)).mpr
      ⟨rel, p, h1, h2, rfl⟩
  simp [build, hph]

/-- C1 witness: endpoint "records.detail" is present in both the own table
and the mirror, and the own table wins with the own prefix. -/
theorem c1_witness :
    InvenioAppsUrlsBuilder.build { bldr with url_map := some mirBoth } appMain
        "records.detail" [("id", "abc123")] none
      = .ok ("https://main.example.org" ++ "/records/abc123") :=
  c1_phase1_wins_and_mirror_unconsulted bldr appMain "records.detail"
    [("id", "abc123")] none "/records/abc123" "https://main.example.org"
    (by rfl) (by rfl) (some mirBoth)

/-- C2: during `build`, the fallback to the mirrored table runs if and only
if phase 1 fails with a werkzeug `BuildError`: a phase-1 success returns
immediately, a phase-1 `BuildError` hands over to phase 2, and any other
phase-1 error — such as the `KeyError` raised while prefixing a successful
phase-1 build — propagates unchanged whatever the mirrored table holds
(the mirror is not tried). -/
theorem c2_fallback_iff_build_failure (b : InvenioAppsUrlsBuilder)
    (app : FlaskApp) (endpoint : String) (values : List (String × String))
    (method : Option String) :
    (∀ u : String, b.phase1 app endpoint values method = .ok u →
        b.build app endpoint values method = .ok u) ∧
    (∀ e : PyError, b.phase1 app endpoint values method = .error e →
        e.isBuildError = true →
        b.build app endpoint values method
          = b.phase2 app endpoint values method) ∧
    (∀ e : PyError, ∀ mir : Option Map,
        b.phase1 app endpoint values method = .error e →
        e.isBuildError = false →
        InvenioAppsUrlsBuilder.build { b with url_map := mir } app endpoint
            values method
          = .error e) := by
  refine ⟨?_, ?_, ?_⟩
  · intro u h
    simp [build, h]
  · intro e h hb
    simp [build, h, hb]
  · intro e mir h hb
    simp [build, phase1_set_mirror, h, hb]

/-- C2 witness: the own-table build of "records.detail" succeeds but the
own-app prefix key "MISSING" is absent from the configuration; the
`KeyError` propagates and the mirror (which even knows the endpoint) is
not tried. -/
theorem c2_witness :
    InvenioAppsUrlsBuilder.build { bMiss with url_map := some mirBoth }
        appMain "records.detail" [("id", "x")] none
      = .error (.keyError "MISSING") :=
  (c2_fallback_iff_build_failure bMiss appMain "records.detail"
    [("id", "x")] none).2.2 (.keyError "MISSING") (some mirBoth)
    (by rfl) (by rfl)

/-- C3: for an endpoint absent from the current application's own routing
table but buildable from the mirrored table, `build` returns the
other-application prefix concatenated with the path built from the
mirror. -/
theorem c3_mirror_fallback_with_other_pfx (b : InvenioAppsUrlsBuilder)
    (app : FlaskApp) (endpoint : String) (values : List (String × String))
    (method : Option String) (mir : Map) (rel p : String)
    (h0 : b.url_map = some mir)
    (h1 : ∀ r ∈ app.url_map.rules, r.endpoint ≠ endpoint)
    (h2 : Map.build mir endpoint values method = .ok rel)
    (h3 : app.config.lookup b.cfg_of_other_app_pfx = some p) :
    b.build app endpoint values method = .ok (p ++ rel) := by
  have hb := Map.build_absent app.url_map endpoint values method h1
  have hph : b.phase1 app endpoint values method
      = .error (.buildError endpoint) := by
    simp [phase1, Bind.bind, Except.bind, hb]
  have hp2 : b.phase2 app endpoint values method = .ok (p ++ rel) :=
    (phase2_ok_iff b app endpoint values method (p ++ rel)).mpr
      ⟨mir, rel, p, h0, h2, h3, rfl⟩
  simp [build, hph, PyError.isBuildError, hp2]

/-- C3 witness: the spec's scenario — "search.results" is absent from the
own table, present in the mirror as /search, and the result is the
other-app prefix https://archive.example.org concatenated with /search. -/
theorem c3_witness :
    bldr.build appMain "search.results" [] none
      = .ok ("https://archive.example.org" ++ "/search") :=
  c3_mirror_fallback_with_other_pfx bldr appMain "search.results" [] none
    mirEx "/search" "https://archive.example.org"
    (by rfl) (by decide) (by rfl) (by rfl)

/-- C4: for an endpoint present in neither table, `build` fails with the
`BuildError` raised by phase 2, propagating uncaught; in particular it
never returns a string. -/
theorem c4_absent_everywhere_raises_build_error (b : InvenioAppsUrlsBuilder)
    (app : FlaskApp) (endpoint : String) (values : List (String × String))
    (method : Option String) (mir : Map)
    (h0 : b.url_map = some mir)
    (h1 : ∀ r ∈ app.url_map.rules, r.endpoint ≠ endpoint)
    (h2 : ∀ r ∈ mir.rules, r.endpoint ≠ endpoint) :
    b.build app endpoint values method = .error (.buildError endpoint) ∧
    ∀ s : String, b.build app endpoint values method ≠ .ok s := by
  have hb1 := Map.build_absent app.url_map endpoint values method h1
  have hb2 := Map.build_absent mir endpoint values method h2
  have hph : b.phase1 app endpoint values method
      = .error (.buildError endpoint) := by
    simp [phase1, Bind.bind, Except.bind, hb1]
  have h : b.build app endpoint values method
      = .error (.buildError endpoint) := by
    simp [build, hph, PyError.isBuildError, phase2, h0, Bind.bind,
      Except.bind, hb2]
  refine ⟨h, fun s hs => ?_⟩
  rw [h] at hs
  cases hs

/-- C4 witness: the spec's scenario — "nonexistent.page" is in neither
table and `build` raises `BuildError`, returning no URL. -/
theorem c4_witness :
    bldr.build appMain "nonexistent.page" [] none
        = .error (.buildError "nonexistent.page") ∧
    ∀ s : String, bldr.build appMain "nonexistent.page" [] none ≠ .ok s :=
  c4_absent_everywhere_raises_build_error bldr appMain "nonexistent.page"
    [] none mirEx (by rfl) (by decide) (by decide)

/-- C5: every URL `build` returns is exactly the prefix value resolved from
configuration concatenated with the relative path the internal build step
produced — either the own-app prefix with the own-table path, or the
other-app prefix with the mirror path; no other transformation happens. -/
theorem c5_result_is_pfx_concat (b : InvenioAppsUrlsBuilder)
    (app : FlaskApp) (endpoint : String) (values : List (String × String))
    (method : Option String) (s : String)
    (h : b.build app endpoint values method = .ok s) :
    (∃ rel p, Map.build app.url_map endpoint values method = .ok rel ∧
        app.config.lookup b.cfg_of_app_pfx = some p ∧ s = p ++ rel) ∨
    (∃ mir rel p, b.url_map = some mir ∧
        Map.build mir endpoint values method = .ok rel ∧
        app.config.lookup b.cfg_of_other_app_pfx = some p ∧
        s = p ++ rel) := by
  cases hph : b.phase1 app endpoint values method with
  | ok u =>
      have hu : u = s := by
        simp [build, hph] at h
        exact h
      exact Or.inl ((phase1_ok_iff b app endpoint values method s).mp
        (hu ▸ hph))
  | error e =>
      cases he : e.isBuildError with
      | false =>
          exfalso
          simp [build, hph, he] at h
      | true =>
          have h2 : b.phase2 app endpoint values method = .ok s := by
            simpa [build, hph, he] using h
          exact Or.inr ((phase2_ok_iff b app endpoint values method s).mp h2)

/-- C5 witness: the spec's scenario — "records.detail" with id "abc123",
own pattern /records/<id>, own prefix https://main.example.org: the result
https://main.example.org/records/abc123 decomposes as prefix ++ path. -/
theorem c5_witness :
    (∃ rel p,
        Map.build appMain.url_map "records.detail" [("id", "abc123")] none
          = .ok rel ∧
        appMain.config.lookup bldr.cfg_of_app_pfx = some p ∧
        "https://main.example.org/records/abc123" = p ++ rel) ∨
    (∃ mir rel p, bldr.url_map = some mir ∧
        Map.build mir "records.detail" [("id", "abc123")] none = .ok rel ∧
        appMain.config.lookup bldr.cfg_of_other_app_pfx = some p ∧
        "https://main.example.org/records/abc123" = p ++ rel) :=
  c5_result_is_pfx_concat bldr appMain "records.detail" [("id", "abc123")]
    none "https://main.example.org/records/abc123" (by rfl)

/-- C6: on every call, whichever prefix is the one to prepend — the own-app
prefix when the own table builds the endpoint, the other-app prefix on the
fallback path through the mirror — is looked up afresh from the
configuration in force at the moment of that call: replacing the
application's configuration changes the result accordingly, and when the
referenced prefix key is absent at build time the call fails with the
uncaught `KeyError`, no default substituted, in both phases. -/
theorem c6_pfx_read_fresh_no_default (b : InvenioAppsUrlsBuilder)
    (app : FlaskApp) (endpoint : String) (values : List (String × String))
    (method : Option String) :
    (∀ (rel : String) (cfg : List (String × String)),
        Map.build app.url_map endpoint values method = .ok rel →
        InvenioAppsUrlsBuilder.build b { app with config := cfg } endpoint
            values method
          = match cfg.lookup b.cfg_of_app_pfx with
            | some p => .ok (p ++ rel)
            | none => .error (.keyError b.cfg_of_app_pfx)) ∧
    (∀ (mir : Map) (rel : String) (cfg : List (String × String)),
        b.url_map = some mir →
        Map.build app.url_map endpoint values method
          = .error (.buildError endpoint) →
        Map.build mir endpoint values method = .ok rel →
        InvenioAppsUrlsBuilder.build b { app with config := cfg } endpoint
            values method
          = match cfg.lookup b.cfg_of_other_app_pfx with
            | some p => .ok (p ++ rel)
            | none => .error (.keyError b.cfg_of_other_app_pfx)) := by
  constructor
  · intro rel cfg h
    have hm : Map.build ({ app with config := cfg } : FlaskApp).url_map
        endpoint values method = .ok rel := h
    cases hc : cfg.lookup b.cfg_of_app_pfx with
    | some p =>
        have hph : b.phase1 { app with config := cfg } endpoint values method
            = .ok (p ++ rel) :=
          (phase1_ok_iff b { app with config := cfg } endpoint values method
            (p ++ rel)).mpr ⟨rel, p, hm, hc, rfl⟩
        simp [build, hph]
    | none =>
        have hph : b.phase1 { app with config := cfg } endpoint values method
            = .error (.keyError b.cfg_of_app_pfx) := by
          simp [phase1, sitePfx, Bind.bind, Except.bind, hm, hc]
        simp [build, hph, PyError.isBuildError]
  · intro mir rel cfg h0 h1 h2
    have hm1 : Map.build ({ app with config := cfg } : FlaskApp).url_map
        endpoint values method = .error (.buildError endpoint) := h1
    have hph : b.phase1 { app with config := cfg } endpoint values method
        = .error (.buildError endpoint) := by
      simp [phase1, Bind.bind, Except.bind, hm1]
    cases hc : cfg.lookup b.cfg_of_other_app_pfx with
    | some p =>
        have hp2 : b.phase2 { app with config := cfg } endpoint values method
            = .ok (p ++ rel) :=
          (phase2_ok_iff b { app with config := cfg } endpoint values method
            (p ++ rel)).mpr ⟨mir, rel, p, h0, h2, hc, rfl⟩
        simp [build, hph, PyError.isBuildError, hp2]
    | none =>
        have hp2 : b.phase2 { app with config := cfg } endpoint values method
            = .error (.keyError b.cfg_of_other_app_pfx) := by
          simp [phase2, sitePfx, Bind.bind, Except.bind, h0, h2, hc]
        simp [build, hph, PyError.isBuildError, hp2]

/-- C6 witness: with the configuration emptied at call time, a phase-1 call
for "records.detail" fails with the `KeyError` for the own-app prefix key,
and a fallback call for "search.results" fails with the `KeyError` for the
other-app prefix key. -/
theorem c6_witness :
    (InvenioAppsUrlsBuilder.build bldr { appMain with config := [] }
        "records.detail" [("id", "abc123")] none
      = match ([] : List (String × String)).lookup bldr.cfg_of_app_pfx with
        | some p => .ok (p ++ "/records/abc123")
        | none => .error (.keyError bldr.cfg_of_app_pfx)) ∧
    (InvenioAppsUrlsBuilder.build bldr { appMain with config := [] }
        "search.results" [] none
      = match ([] : List (String × String)).lookup
            bldr.cfg_of_other_app_pfx with
        | some p => .ok (p ++ "/search")
        | none => .error (.keyError bldr.cfg_of_other_app_pfx)) :=
  ⟨(c6_pfx_read_fresh_no_default bldr appMain "records.detail"
      [("id", "abc123")] none).1 "/records/abc123" [] (by rfl),
   (c6_pfx_read_fresh_no_default bldr appMain "search.results"
      [] none).2 mirEx "/search" [] (by rfl) (by rfl) (by rfl)⟩

/-- C7: after `setup`, the mirrored table is exactly one entry per route
discovered in the throwaway shell, each holding only that route's pattern
and endpoint name (methods reset, no view function); in particular no
mirrored entry holds an executable handler, so dispatch through the mirror
can reach none. -/
theorem c7_mirror_holds_only_pattern_endpoint (b : InvenioAppsUrlsBuilder)
    (app_tmp : FlaskApp) (mir : Map)
    (h : (b.setup app_tmp).url_map = some mir) :
    mir.rules = app_tmp.url_map.rules.map (fun r =>
      { rule := r.rule, endpoint := r.endpoint,
        methods := none, view_func := none }) ∧
    ∀ r ∈ mir.rules, r.view_func = none := by
  have hm : mir.rules = app_tmp.url_map.rules.map (fun r =>
      { rule := r.rule, endpoint := r.endpoint,
        methods := none, view_func := none }) := by
    simp [setup] at h
    rw [← h]
  refine ⟨hm, fun r hr => ?_⟩
  rw [hm] at hr
  simp [List.mem_map] at hr
  obtain ⟨r0, _, hr0⟩ := hr
  rw [← hr0]

/-- C7 witness: the concrete shell's single route /search appears in the
mirror exactly once, stripped to its pattern and endpoint. -/
theorem c7_witness :
    mirEx.rules = appTmp.url_map.rules.map (fun r =>
      { rule := r.rule, endpoint := r.endpoint,
        methods := none, view_func := none }) ∧
    ∀ r ∈ mirEx.rules, r.view_func = none :=
  c7_mirror_holds_only_pattern_endpoint
    (InvenioAppsUrlsBuilder.init "APP_PFX" "OTHER_PFX"
      ["invenio_base.blueprints"]) appTmp mirEx (by rfl)

/-- C8: two consecutive calls to `build` with identical arguments return
identical results, and neither call mutates the resolver (and with it the
mirrored table) or the current application (and with it the live table and
configuration): the state-passing translation returns both unchanged, and
a second call on the state the first returned reproduces the first call
exactly. -/
theorem c8_build_idempotent_no_mutation (b : InvenioAppsUrlsBuilder)
    (app : FlaskApp) (endpoint : String) (values : List (String × String))
    (method : Option String) :
    (b.buildSt app endpoint values method).2.1 = b ∧
    (b.buildSt app endpoint values method).2.2 = app ∧
    InvenioAppsUrlsBuilder.buildSt (b.buildSt app endpoint values method).2.1
        (b.buildSt app endpoint values method).2.2 endpoint values method
      = b.buildSt app endpoint values method := by
  simp [buildSt_eq]

/-- C9: on a resolver straight out of the constructor (no `setup`), a call
to `build` whose phase 1 misses the endpoint in the own table fails with
the `AttributeError` for the never-initialized mirrored-table attribute —
which is not a `BuildError`. -/
theorem c9_build_before_setup_attribute_error (cfgA cfgB : String)
    (groups : List String) (app : FlaskApp) (endpoint : String)
    (values : List (String × String)) (method : Option String)
    (h : ∀ r ∈ app.url_map.rules, r.endpoint ≠ endpoint) :
    (InvenioAppsUrlsBuilder.init cfgA cfgB groups).build app endpoint
        values method
      = .error (.attributeError "url_map") ∧
    (PyError.attributeError "url_map").isBuildError = false := by
  have hb := Map.build_absent app.url_map endpoint values method h
  have hph : (InvenioAppsUrlsBuilder.init cfgA cfgB groups).phase1 app
      endpoint values method = .error (.buildError endpoint) := by
    simp [phase1, Bind.bind, Except.bind, hb]
  refine ⟨?_, rfl⟩
  simp only [build]
  rw [hph]
  simp [PyError.isBuildError, phase2, init]

/-- C9 witness: a freshly constructed resolver asked for an endpoint the
own table misses raises `AttributeError`, not `BuildError`. -/
theorem c9_witness :
    (InvenioAppsUrlsBuilder.init "A" "B" []).build appMain
        "nonexistent.page" [] none
      = .error (.attributeError "url_map") ∧
    (PyError.attributeError "url_map").isBuildError = false :=
  c9_build_before_setup_attribute_error "A" "B" [] appMain
    "nonexistent.page" [] none (by decide)

/-- C10: every rule `setup` copies into the mirror has its HTTP-method
restriction discarded (rebuilt from pattern and endpoint only), so a
phase-2 build against the mirrored table gives the same result whatever
method hint is passed — it can never fail because of a method mismatch,
even when the other application's route restricted its methods. -/
theorem c10_mirror_discards_methods (b : InvenioAppsUrlsBuilder)
    (app_tmp : FlaskApp) (mir : Map)
    (h : (b.setup app_tmp).url_map = some mir) :
    (∀ r ∈ mir.rules, r.methods = none) ∧
    ∀ (endpoint : String) (values : List (String × String))
      (m1 m2 : Option String),
      Map.build mir endpoint values m1 = Map.build mir endpoint values m2 := by
  have hm : mir.rules = app_tmp.url_map.rules.map (fun r =>
      { rule := r.rule, endpoint := r.endpoint,
        methods := none, view_func := none }) := by
    simp [setup] at h
    rw [← h]
  have hmeth : ∀ r ∈ mir.rules, r.methods = none := by
    intro r hr
    rw [hm] at hr
    simp [List.mem_map] at hr
    obtain ⟨r0, _, hr0⟩ := hr
    rw [← hr0]
  refine ⟨hmeth, fun endpoint values m1 m2 => ?_⟩
  have hfind : mir.rules.find? (fun r => r.endpoint == endpoint
        && r.suitable_for values m1)
      = mir.rules.find? (fun r => r.endpoint == endpoint
        && r.suitable_for values m2) := by
    apply find_congr_on
    intro r hr
    have hr0 := hmeth r hr
    cases m1 <;> cases m2 <;> simp [Rule.suitable_for, hr0]
  simp [Map.build, hfind]

/-- C10 witness: the concrete mirror of the GET/HEAD-restricted /search
route carries no method restriction, and build results against it are
method-independent. -/
theorem c10_witness :
    (∀ r ∈ mirEx.rules, r.methods = none) ∧
    ∀ (endpoint : String) (values : List (String × String))
      (m1 m2 : Option String),
      Map.build mirEx endpoint values m1
        = Map.build mirEx endpoint values m2 :=
  c10_mirror_discards_methods
    (InvenioAppsUrlsBuilder.init "APP_PFX" "OTHER_PFX"
      ["invenio_base.blueprints"]) appTmp mirEx (by rfl)

end InvenioBase
